import Mathlib

/-!
Shallow embedding of the Albert GitHub plugin (`src/__init__.py`) and
verification of its specification's claims.

The plugin consists of a `Repo` dataclass, a `GitHubHelper` class holding a
comma-separated accounts string, a cache-file path, an in-memory cache list,
and a `Plugin` class wiring queries to the cache.  Each Python function with
logic is embedded as a Lean definition below; exceptional control flow is
made explicit with `Option`/`Except`.
-/

namespace AlbertGitHub

/-- The `Repo` dataclass: `account`, `name`, `url`, `description`, all
strings.  `description` may be the empty string. -/
structure Repo where
  account : String
  name : String
  url : String
  description : String
deriving DecidableEq, Repr

/-- `str.lower()` on the character list: ASCII lowercasing (the repository
data in play is ASCII; Python's full Unicode lowering agrees there). -/
def lowerChars (l : List Char) : List Char :=
  l.map Char.toLower

/-- Python's `str.lower()`. -/
def pyLower (s : String) : String :=
  String.mk (lowerChars s.data)

/-- `needle` is a leading segment of `haystack`. -/
def startsWithChars : List Char → List Char → Bool
  | [], _ => true
  | _ :: _, [] => false
  | c :: cs, d :: ds => c == d && startsWithChars cs ds

/-- `needle` occurs contiguously inside `haystack`. -/
def containsChars (needle : List Char) : List Char → Bool
  | [] => needle.isEmpty
  | d :: ds => startsWithChars needle (d :: ds) || containsChars needle ds

/-- Python's substring operator `needle in haystack` on strings. -/
def strIn (needle haystack : String) : Bool :=
  containsChars needle.data haystack.data

/-- `Repo.matches_query`: `return query in self.name.lower()`.
Note the source lowercases the *name* only, not the query. -/
def Repo.matches_query (r : Repo) (query : String) : Bool :=
  strIn query (pyLower r.name)

/-- `Repo.to_dict`: `self.__dict__`, i.e. the insertion-ordered dict of the
four dataclass fields. -/
def Repo.to_dict (r : Repo) : List (String × String) :=
  [("account", r.account), ("name", r.name), ("url", r.url),
   ("description", r.description)]

/-- `Repo.from_dict(data)`: `cls(**data)`.  The call succeeds exactly when
the dict's keys are exactly the four dataclass field names (Python raises
`TypeError` otherwise); dataclasses perform no value checking. -/
def Repo.from_dict (data : List (String × String)) : Option Repo :=
  let ks := data.map Prod.fst
  if ks.length = 4 ∧ "account" ∈ ks ∧ "name" ∈ ks ∧ "url" ∈ ks ∧
      "description" ∈ ks then
    some { account := ((data.lookup "account").getD "")
           name := ((data.lookup "name").getD "")
           url := ((data.lookup "url").getD "")
           description := ((data.lookup "description").getD "") }
  else
    none

/-- Python's `str.split(",")` over the character list: cut at every comma,
keeping empty segments; splitting the empty string yields one empty
segment. -/
def splitCommaChars : List Char → List (List Char)
  | [] => [[]]
  | c :: cs =>
    let rest := splitCommaChars cs
    if c == ',' then [] :: rest
    else
      match rest with
      | [] => [[c]]
      | seg :: segs => (c :: seg) :: segs

/-- Python's `str.split(",")`. -/
def pySplitComma (s : String) : List String :=
  (splitCommaChars s.data).map String.mk

/-- Python's `str.strip()`: drop whitespace from both ends (the
configuration strings in play use ASCII whitespace, where Python's
definition and `Char.isWhitespace` agree). -/
def stripChars (l : List Char) : List Char :=
  ((l.dropWhile Char.isWhitespace).reverse.dropWhile Char.isWhitespace).reverse

/-- Python's `str.strip()`. -/
def pyStrip (s : String) : String :=
  String.mk (stripChars s.data)

/-- `GitHubHelper.get_accounts`: split the configured accounts string on
commas and strip each piece; nothing is dropped. -/
def get_accounts (accounts : String) : List String :=
  (pySplitComma accounts).map pyStrip

/-- One element of the API response's `items` array, with the fields
`get_repos_for_account` reads: `name`, `owner.login`, `html_url`,
`description` (string or null), `archived` (boolean). -/
structure Item where
  name : String
  login : String
  html_url : String
  description : Option String
  archived : Bool
deriving DecidableEq, Repr

/-- Python's `repo["description"] or ""`: the empty string when the source
value is null (and `"" or ""` is also `""`). -/
def descOrEmpty : Option String → String
  | none => ""
  | some s => s

/-- Building one record in `get_repos_for_account`'s inner loop:
`Repo(name=..., account=repo["owner"]["login"], url=repo["html_url"],
description=repo["description"] or "")`. -/
def itemToRepo (it : Item) : Repo :=
  { account := it.login
    name := it.name
    url := it.html_url
    description := descOrEmpty it.description }

/-- The inner `for repo in data["items"]` loop of `get_repos_for_account`:
skip an item when `repo["archived"] == True`, otherwise append the built
record. -/
def processItems : List Item → List Repo
  | [] => []
  | it :: rest =>
    if it.archived then processItems rest
    else itemToRepo it :: processItems rest

/-- One HTTP response in the pagination sequence: its `items` array and the
`next` relation link from `req.links` (absent when there is no next page). -/
structure Page where
  items : List Item
  next : Option String
deriving Repr

/-- The `while url:` loop of `get_repos_for_account`, run against a mocked
response sequence consumed in request order.  Each consumed page is one
`requests.get` call; the loop continues exactly while the previous response
carried a `next` link.  Returns the accumulated records and the number of
requests issued.  (An empty remaining sequence models a server with no
further responses; no request succeeds there.) -/
def get_repos_pages : List Page → List Repo × Nat
  | [] => ([], 0)
  | p :: rest =>
    match p.next with
    | none => (processItems p.items, 1)
    | some _ =>
      let r := get_repos_pages rest
      (processItems p.items ++ r.1, r.2 + 1)

/-- Exceptions that `cache_all_repos` can surface: the `AttributeError`
raised by the misspelled `self.cache_path.exitst()` (a `pathlib.Path` has no
such attribute, so the call raises whether or not the file exists), or a
propagated network/request error from `get_repos_for_account`, carrying its
message. -/
inductive PyErr where
  | attributeError : PyErr
  | fetchError (msg : String) : PyErr
deriving DecidableEq, Repr

/-- The helper's persistent state: the decoded content of the backing cache
file `gh_cache.json` (`none` when the file does not exist) and the in-memory
`self.cache` attribute (`none` when the attribute was never assigned). -/
structure CacheState where
  file : Option (List Repo)
  cache : Option (List Repo)
deriving DecidableEq, Repr

/-- The `repos = []; for account in self.get_accounts(): repos +=
self.get_repos_for_account(account)` loop of `cache_all_repos`, abstracting
each per-account fetch as `fetchFn`; the first raising fetch aborts the
whole loop. -/
def fetchAccounts (fetchFn : String → Except String (List Repo)) :
    List String → Except String (List Repo)
  | [] => .ok []
  | a :: rest =>
    match fetchFn a with
    | .error e => .error e
    | .ok repos =>
      match fetchAccounts fetchFn rest with
      | .error e => .error e
      | .ok more => .ok (repos ++ more)

/-- `GitHubHelper.cache_all_repos(overwrite)`: when `overwrite` is false the
guard evaluates `self.cache_path.exitst()`, which raises `AttributeError`
unconditionally; when `overwrite` is true the conjunction short-circuits and
the guard is skipped.  All fetches happen before the file is opened for
writing; on full success the file is overwritten and `self.cache` assigned.
Returns the call's outcome paired with the state after the call. -/
def cache_all_repos (overwrite : Bool) (accountsRaw : String)
    (fetchFn : String → Except String (List Repo)) (st : CacheState) :
    Except PyErr Unit × CacheState :=
  if overwrite = false then (.error .attributeError, st)
  else
    match fetchAccounts fetchFn (get_accounts accountsRaw) with
    | .error e => (.error (.fetchError e), st)
    | .ok repos => (.ok (), { file := some repos, cache := some repos })

/-- `GitHubHelper.__init__`'s cache loading: `self.cache` is assigned from
the file only under `if os.path.exists(self.cache_path):`; when the file
does not exist, nothing is assigned. -/
def initCache (fileOnDisk : Option (List Repo)) : Option (List Repo) :=
  match fileOnDisk with
  | some repos => some repos
  | none => none

/-- The non-admin branch of `Plugin.handleTriggerQuery`: filter
`self.gh.cache` by `repo.matches_query(query.string.lower())`.  Reading the
never-assigned `self.cache` raises `AttributeError`. -/
def queryCache (cache : Option (List Repo)) (queryString : String) :
    Except PyErr (List Repo) :=
  match cache with
  | none => .error .attributeError
  | some repos =>
    .ok (repos.filter (fun r => r.matches_query queryString.toLower))

/-- A JSON value, as `json.load` produces it (numbers collapsed to `Int`;
object keys unique in parse order). -/
inductive Json where
  | null : Json
  | bool (b : Bool) : Json
  | num (n : Int) : Json
  | str (s : String) : Json
  | arr (l : List Json) : Json
  | obj (fields : List (String × Json)) : Json

/-- Errors the cache-loading path can produce.  The source raises only the
first two (unclassified standard exceptions); `cacheCorruptError` is the
classification the spec asks for, which no code path produces. -/
inductive LoadErr where
  | jsonDecodeError : LoadErr
  | typeError : LoadErr
  | cacheCorruptError : LoadErr
deriving DecidableEq, Repr

/-- A `Repo` as `Repo.from_dict` actually builds it from arbitrary JSON:
dataclasses do not check field types, so each field holds whatever JSON
value the dict carried. -/
structure PyRepo where
  account : Json
  name : Json
  url : Json
  description : Json

/-- `Repo.from_dict(**data)` on a parsed JSON element: a non-object raises
`TypeError` (`argument after ** must be a mapping`); an object's keys must
be exactly the four dataclass field names, else `cls(**data)` raises
`TypeError`; field values are not checked. -/
def fromDictJson : Json → Except LoadErr PyRepo
  | .obj fields =>
    let ks := fields.map Prod.fst
    if ks.length = 4 ∧ "account" ∈ ks ∧ "name" ∈ ks ∧ "url" ∈ ks ∧
        "description" ∈ ks then
      .ok { account := ((fields.lookup "account").getD .null)
            name := ((fields.lookup "name").getD .null)
            url := ((fields.lookup "url").getD .null)
            description := ((fields.lookup "description").getD .null) }
    else
      .error .typeError
  | _ => .error .typeError

/-- The list comprehension `[Repo.from_dict(c) for c in cached_data]`: the
first raising element aborts the whole load. -/
def decodeRepoList : List Json → Except LoadErr (List PyRepo)
  | [] => .ok []
  | j :: rest =>
    match fromDictJson j with
    | .error e => .error e
    | .ok r =>
      match decodeRepoList rest with
      | .error e => .error e
      | .ok rs => .ok (r :: rs)

/-- The load path of `GitHubHelper.__init__` on an *existing* cache file:
`json.load` (`none` models unparseable content, raising
`json.JSONDecodeError`) followed by the comprehension over the parsed
value.  Iterating a JSON object yields its keys; iterating a string yields
its one-character substrings; iterating a number, boolean or null raises
`TypeError`. -/
def loadCache : Option Json → Except LoadErr (List PyRepo)
  | none => .error .jsonDecodeError
  | some (.arr l) => decodeRepoList l
  | some (.obj fields) => decodeRepoList (fields.map (fun kv => Json.str kv.1))
  | some (.str s) =>
    decodeRepoList (s.data.map (fun c => Json.str (String.mk [c])))
  | some _ => .error .typeError

/-- The list comprehension `[Repo.from_dict(c) for c in cached_data]` on a
well-typed parsed cache file (a JSON array of string-valued objects, which
is exactly what `cache_all_repos` writes): the first raising element aborts
the load. -/
def load_repo_dicts : List (List (String × String)) → Option (List Repo)
  | [] => some []
  | d :: rest =>
    match Repo.from_dict d with
    | none => none
    | some r =>
      match load_repo_dicts rest with
      | none => none
      | some rs => some (r :: rs)

/-! ### Helper lemmas -/

/-- Deserialization inverts serialization on a single record. -/
theorem from_dict_to_dict (r : Repo) : Repo.from_dict (Repo.to_dict r) = some r := by
  cases r; rfl

/-- Deserialization inverts serialization on any record list. -/
theorem load_repo_dicts_map_to_dict (l : List Repo) :
    load_repo_dicts (l.map Repo.to_dict) = some l := by
  induction l with
  | nil => rfl
  | cons r rest ih => simp [load_repo_dicts, from_dict_to_dict, ih]

/-- `startsWithChars` decides the leading-segment relation. -/
theorem startsWithChars_iff (n h : List Char) : startsWithChars n h = true ↔ n <+: h := by
  induction n generalizing h with
  | nil => simp [startsWithChars]
  | cons c cs ih =>
    cases h with
    | nil => simp [startsWithChars]
    | cons d ds => simp [startsWithChars, List.cons_prefix_cons, ih]

/-- `containsChars` decides the contiguous-substring relation. -/
theorem containsChars_iff (n h : List Char) : containsChars n h = true ↔ n <:+: h := by
  induction h with
  | nil => simp [containsChars, List.isEmpty_iff]
  | cons d ds ih => simp [containsChars, startsWithChars_iff, ih, List.infix_cons_iff]

/-- `Repo.from_dict` never produces the `cacheCorruptError` classification. -/
theorem fromDictJson_ne_corrupt (j : Json) :
    fromDictJson j ≠ Except.error LoadErr.cacheCorruptError := by
  cases j with
  | obj fields =>
    simp only [fromDictJson]
    split <;> simp
  | _ => simp [fromDictJson]

/-- The load comprehension never produces the `cacheCorruptError`
classification. -/
theorem decodeRepoList_ne_corrupt (l : List Json) :
    decodeRepoList l ≠ Except.error LoadErr.cacheCorruptError := by
  induction l with
  | nil => simp [decodeRepoList]
  | cons j rest ih =>
    simp only [decodeRepoList]
    cases hj : fromDictJson j with
    | error e =>
      have h2 := fromDictJson_ne_corrupt j
      rw [hj] at h2
      simpa using h2
    | ok r =>
      cases hr : decodeRepoList rest with
      | error e2 =>
        rw [hr] at ih
        simpa using ih
      | ok rs => simp

/-! ### Claim theorems -/

/-- Claim C1 (code behavior at the failing input): when the backing cache
file does not exist, `GitHubHelper.__init__` never assigns `self.cache`
(the in-memory collection is *not* the empty list — the attribute is
absent), and a subsequent `handleTriggerQuery` read of `self.gh.cache`
raises `AttributeError` instead of returning no matches. -/
theorem c1_missing_cache_file_breaks_queries :
    initCache none = none
    ∧ queryCache (initCache none) "" = Except.error PyErr.attributeError := ⟨rfl, rfl⟩

/-- Claim C2 (code behavior at the failing input): with the cache file
present and `overwrite=False`, `cache_all_repos` evaluates the misspelled
`self.cache_path.exitst()` and raises `AttributeError` instead of
returning normally; the skip path is not functional. -/
theorem c2_skip_path_always_raises :
    cache_all_repos false "octocat" (fun _ => Except.ok [])
        ⟨some [⟨"octocat", "hello-world", "https://github.com/octocat/hello-world", ""⟩],
         some [⟨"octocat", "hello-world", "https://github.com/octocat/hello-world", ""⟩]⟩
      = (Except.error PyErr.attributeError,
         ⟨some [⟨"octocat", "hello-world", "https://github.com/octocat/hello-world", ""⟩],
          some [⟨"octocat", "hello-world", "https://github.com/octocat/hello-world", ""⟩]⟩) := rfl

/-- Claim C3 (counterexample): `Repo.matches_query` does not lowercase the
query it is given, so for the record named `octo-cat` and the query `CAT`
it returns `false` even though the lowercased query is a substring of the
lowercased name — the claimed iff fails at this input. -/
theorem c3_case_counterexample :
    Repo.matches_query
        ⟨"octocat", "octo-cat", "https://github.com/octocat/octo-cat", ""⟩ "CAT" = false
    ∧ strIn (pyLower "CAT") (pyLower "octo-cat") = true := by decide

/-- Claim C3 (amended): `Repo.matches_query` tests the query *as given*
against the lowercased name; the call site (`handleTriggerQuery`) passes
the lowercased query, and on that composed path the result is `true` iff
the lowercased query is a substring of the lowercased name.  The empty
query matches every record. -/
theorem c3_matches_query_amended (r : Repo) (q : String) :
    (Repo.matches_query r (pyLower q) = true
      ↔ lowerChars q.data <:+: lowerChars r.name.data)
    ∧ Repo.matches_query r "" = true := by
  constructor
  · simp [Repo.matches_query, strIn, containsChars_iff, pyLower]
  · simp [Repo.matches_query, strIn, containsChars_iff]

/-- Claim C4: serializing any non-empty list of valid records (non-empty
`name` and `account`, `description` possibly empty) with `Repo.to_dict`
and deserializing it back with `Repo.from_dict` over the whole list yields
the original list, field by field and in order. -/
theorem c4_round_trip (l : List Repo) (_hne : l ≠ [])
    (_hvalid : ∀ r ∈ l, r.name ≠ "" ∧ r.account ≠ "") :
    load_repo_dicts (l.map Repo.to_dict) = some l :=
  load_repo_dicts_map_to_dict l

/-- Claim C4 witness: the round trip on a concrete one-record list. -/
theorem c4_round_trip_witness :
    load_repo_dicts
        ([⟨"octocat", "hello-world", "https://github.com/octocat/hello-world", ""⟩].map
          Repo.to_dict)
      = some [⟨"octocat", "hello-world", "https://github.com/octocat/hello-world", ""⟩] :=
  c4_round_trip _ (by decide) (by decide)

/-- Claim C5: if the network fetch fails for any configured account, the
`cache_all_repos` call leaves the whole cache state — on-disk file content
and in-memory collection — exactly as it was before the attempt (all
fetching happens before the file is opened for writing). -/
theorem c5_fetch_failure_preserves_state (ow : Bool) (raw : String)
    (fetchFn : String → Except String (List Repo)) (st : CacheState) (e : String)
    (hfail : fetchAccounts fetchFn (get_accounts raw) = .error e) :
    (cache_all_repos ow raw fetchFn st).2 = st := by
  cases ow with
  | false => rfl
  | true => simp [cache_all_repos, hfail]

/-- Claim C5 witness: a failing fetch against a concrete pre-existing
cache leaves that state untouched. -/
theorem c5_fetch_failure_preserves_state_witness :
    (cache_all_repos true "octocat" (fun _ => Except.error "ConnectionError")
        ⟨some [⟨"octocat", "hello-world", "https://github.com/octocat/hello-world", ""⟩],
         some [⟨"octocat", "hello-world", "https://github.com/octocat/hello-world", ""⟩]⟩).2
      = ⟨some [⟨"octocat", "hello-world", "https://github.com/octocat/hello-world", ""⟩],
         some [⟨"octocat", "hello-world", "https://github.com/octocat/hello-world", ""⟩]⟩ :=
  c5_fetch_failure_preserves_state true "octocat" _ _ "ConnectionError" rfl

/-- Claim C6: the item loop of `get_repos_for_account` produces exactly the
non-archived items, in order, each mapped to a record built from its name,
owner login, HTML URL and description, where a null description becomes
the empty string. -/
theorem c6_archived_filtered (its : List Item) :
    processItems its = (its.filter fun it => !it.archived).map itemToRepo
    ∧ descOrEmpty none = "" := by
  refine ⟨?_, rfl⟩
  induction its with
  | nil => rfl
  | cons it rest ih => cases h : it.archived <;> simp [processItems, h, ih, List.filter_cons]

/-- Claim C7 (counterexample): `get_accounts` keeps pieces that strip to
the empty string — on `a,,b` it yields `["a", "", "b"]`, not the
`["a", "b"]` the claim's exclusion clause requires. -/
theorem c7_empty_piece_counterexample :
    get_accounts "a,,b" = ["a", "", "b"] ∧ get_accounts "a,,b" ≠ ["a", "b"] := by decide

/-- Claim C7 (amended): `get_accounts` splits on commas and strips each
piece, excluding nothing (one output per split piece); on the spec's
example `"  a , b,  c "` (which has no empty pieces) it yields
`["a", "b", "c"]`. -/
theorem c7_get_accounts_amended (raw : String) :
    (get_accounts raw).length = (pySplitComma raw).length
    ∧ get_accounts raw = (pySplitComma raw).map pyStrip
    ∧ get_accounts "  a , b,  c " = ["a", "b", "c"] := by
  refine ⟨?_, rfl, by decide⟩
  simp [get_accounts]

/-- Claim C8: on a response sequence whose first page carries a `next`
link and whose second does not, `get_repos_for_account`'s loop returns the
processed items of both pages in order and issues exactly two requests,
whatever further responses the server could have produced. -/
theorem c8_pagination_two_pages (items1 items2 : List Item) (u : String)
    (rest : List Page) :
    get_repos_pages
        ({ items := items1, next := some u } :: { items := items2, next := none } :: rest)
      = (processItems items1 ++ processItems items2, 2) := rfl

/-- Claim C9 (counterexample): loading an existing cache file holding the
JSON array `[{"bogus": 1}]` — wrong shape — raises a plain `TypeError`
(from `cls(**data)`), which is not a `CacheCorruptError`. -/
theorem c9_wrong_shape_counterexample :
    loadCache (some (Json.arr [Json.obj [("bogus", Json.num 1)]]))
      = Except.error LoadErr.typeError
    ∧ (Except.error LoadErr.typeError : Except LoadErr (List PyRepo))
        ≠ Except.error LoadErr.cacheCorruptError := ⟨rfl, by simp⟩

/-- Claim C9 (amended): the load path never classifies a failure as
`CacheCorruptError` — no such exception exists in the code; invalid JSON
surfaces as the unclassified `json.JSONDecodeError` and wrong-shape
content as an unclassified `TypeError` (when it raises at all). -/
theorem c9_no_cache_corrupt_error :
    (∀ content : Option Json, loadCache content ≠ Except.error LoadErr.cacheCorruptError)
    ∧ loadCache none = Except.error LoadErr.jsonDecodeError := by
  refine ⟨?_, rfl⟩
  intro content
  cases content with
  | none => simp [loadCache]
  | some j =>
    cases j with
    | arr l => exact decodeRepoList_ne_corrupt l
    | obj fields => exact decodeRepoList_ne_corrupt _
    | str s => exact decodeRepoList_ne_corrupt _
    | _ => simp [loadCache]

/-- Claim C10: with `overwrite=True` (the default, used at every call
site), the misspelled existence predicate is short-circuited — the call
never raises `AttributeError` — and whenever the fetch succeeds the cache
file and the in-memory collection are both overwritten with the fetched
records, regardless of the prior state. -/
theorem c10_overwrite_true_refetches (raw : String)
    (fetchFn : String → Except String (List Repo)) (st : CacheState) :
    (cache_all_repos true raw fetchFn st).1 ≠ Except.error PyErr.attributeError
    ∧ ∀ repos, fetchAccounts fetchFn (get_accounts raw) = .ok repos →
        cache_all_repos true raw fetchFn st
          = (Except.ok (), { file := some repos, cache := some repos }) := by
  constructor
  · cases hf : fetchAccounts fetchFn (get_accounts raw) <;> simp [cache_all_repos, hf]
  · intro repos h
    simp [cache_all_repos, h]

/-- Claim C10 witness: a concrete default-path refresh starting from an
empty state neither raises on the existence check nor skips the
overwrite. -/
theorem c10_overwrite_true_refetches_witness :
    (cache_all_repos true "a" (fun _ => Except.ok ([] : List Repo)) ⟨none, none⟩).1
        ≠ Except.error PyErr.attributeError
    ∧ cache_all_repos true "a" (fun _ => Except.ok ([] : List Repo)) ⟨none, none⟩
        = (Except.ok (), { file := some [], cache := some [] }) :=
  ⟨(c10_overwrite_true_refetches "a" _ _).1,
   (c10_overwrite_true_refetches "a" _ _).2 [] rfl⟩

end AlbertGitHub
